import Mathlib

/-!
Verification development for the RFP-management backend.

The definitions below are a shallow embedding of the TypeScript sources:
`src/controllers/inboundEmailController.ts`, `src/utils/fallbackParser.ts`,
`src/services/aiService.ts` (both versions), the proposal delete controller
and the Prisma schema for `InboundEmail`.  JavaScript regular expressions are
embedded through a small backtracking matcher (`RE` / `mrun`) whose outcome
ordering mirrors the JS engine: alternation prefers the left branch, `star`
is greedy, `lazyStar` is lazy, and matching is attempted at each start
position from the left.  Strings are modelled as `List Char`; machine floats
produced by `parseFloat` are modelled exactly (`JsNum`) because every number
reaching it has the shape `digits ('.' digit digit)?`.  The database is a
record of tables; the external mail provider and the LLM are oracles passed
as explicit parameters.
-/

namespace RFPBackend

/-- JS whitespace (the characters relevant to this codebase): space, tab,
newline, carriage return, vertical tab, form feed. -/
def jsWhite (c : Char) : Bool :=
  c = ' ' || c = '\t' || c = '\n' || c = '\r' || c = Char.ofNat 11 || c = Char.ofNat 12

/-- Characters matched by `.` in a JS regex without the `s` flag
(approximated by excluding the two ASCII line terminators). -/
def jsDotP (c : Char) : Bool := !(c = '\n' || c = '\r')

/-- Regular expressions as used by the backend, with one capture group. -/
inductive RE where
  | eps : RE
  | cls : (Char → Bool) → RE
  | seq : RE → RE → RE
  | alt : RE → RE → RE
  | star : RE → RE
  | lazyStar : RE → RE
  | grp : RE → RE

/-- Number of nodes of a regular expression (used to size the fuel). -/
def reSize : RE → Nat
  | .eps => 1
  | .cls _ => 1
  | .seq a b => reSize a + reSize b + 1
  | .alt a b => reSize a + reSize b + 1
  | .star r => reSize r + 1
  | .lazyStar r => reSize r + 1
  | .grp r => reSize r + 1

/-- Backtracking matcher.  `mrun fuel r s` returns, in JS backtracking
priority order, every way `r` can match a prefix of `s`; an outcome is the
remaining suffix together with the group-1 capture (if assigned on that
path).  Left alternatives come first, `star` is greedy, `lazyStar` lazy; a
`star` iteration must consume at least one character, as in JS. -/
def mrun : Nat → RE → List Char → List (List Char × Option (List Char))
  | 0, _, _ => []
  | _ + 1, .eps, s => [(s, none)]
  | _ + 1, .cls _, [] => []
  | _ + 1, .cls p, c :: s => if p c then [(s, none)] else []
  | f + 1, .seq a b, s =>
      (mrun f a s).flatMap fun rc =>
        (mrun f b rc.1).map fun rc2 => (rc2.1, rc2.2.orElse fun _ => rc.2)
  | f + 1, .alt a b, s => mrun f a s ++ mrun f b s
  | f + 1, .star r, s =>
      ((mrun f r s).flatMap fun rc =>
        if rc.1.length < s.length then
          (mrun f (.star r) rc.1).map fun rc2 => (rc2.1, rc2.2.orElse fun _ => rc.2)
        else []) ++ [(s, none)]
  | f + 1, .lazyStar r, s =>
      (s, none) :: ((mrun f r s).flatMap fun rc =>
        if rc.1.length < s.length then
          (mrun f (.lazyStar r) rc.1).map fun rc2 => (rc2.1, rc2.2.orElse fun _ => rc.2)
        else [])
  | f + 1, .grp r, s =>
      (mrun f r s).map fun rc => (rc.1, some (s.take (s.length - rc.1.length)))

/-- Fuel that over-approximates the recursion depth of `mrun` for the
patterns of this codebase (none of which nests `star` inside `star`). -/
def reFuel (r : RE) (s : List Char) : Nat := (reSize r + 2) * (s.length + 2)

/-- Result of a successful leftmost regex search. -/
structure MatchRes where
  pre : List Char
  matched : List Char
  post : List Char
  cap : Option (List Char)
deriving DecidableEq, Repr

/-- Leftmost match: try the pattern at each start position from the left and
keep the first (highest-priority) outcome, as `String.prototype.match` and
`replace` do. -/
def scanFrom (r : RE) : List Char → Option MatchRes
  | [] =>
      match (mrun (reFuel r []) r []).head? with
      | some rc => some { pre := [], matched := [], post := rc.1, cap := rc.2 }
      | none => none
  | c :: s =>
      match (mrun (reFuel r (c :: s)) r (c :: s)).head? with
      | some rc =>
          some { pre := [], matched := (c :: s).take ((c :: s).length - rc.1.length),
                 post := rc.1, cap := rc.2 }
      | none =>
          (scanFrom r s).map fun q =>
            { pre := c :: q.pre, matched := q.matched, post := q.post, cap := q.cap }

/-- The capture of group 1 at the leftmost match (JS `str.match(re)[1]`);
`none` when the pattern does not match.  Every pattern in this codebase
assigns its group on every successful path, so the `getD` default is inert. -/
def jsMatch1 (r : RE) (s : List Char) : Option (List Char) :=
  match scanFrom r s with
  | some m => some (m.cap.getD [])
  | none => none

/-- Whether the pattern matches anywhere (JS truthiness of `str.match(re)`). -/
def jsTest (r : RE) (s : List Char) : Bool :=
  (scanFrom r s).isSome

/-- Global replace (JS `str.replace(/re/g, rep)`), fueled by the input
length; none of the replaced patterns can match the empty string. -/
def replaceAllGAux (r : RE) (rep : List Char) : Nat → List Char → List Char
  | 0, s => s
  | f + 1, s =>
      match scanFrom r s with
      | none => s
      | some m =>
          if m.matched.isEmpty then s
          else m.pre ++ rep ++ replaceAllGAux r rep f m.post

/-- Global replace entry point. -/
def replaceAllG (r : RE) (rep s : List Char) : List Char :=
  replaceAllGAux r rep (s.length + 1) s

/-- Case-sensitive single-character literal. -/
def lit1 (c : Char) : RE := .cls (fun x => x = c)

/-- Case-insensitive single-character literal (the `i` flag). -/
def lit1i (c : Char) : RE := .cls (fun x => x.toLower = c.toLower)

/-- Case-sensitive literal string. -/
def lits (cs : List Char) : RE := cs.foldr (fun c acc => .seq (lit1 c) acc) .eps

/-- Case-insensitive literal string. -/
def litsi (cs : List Char) : RE := cs.foldr (fun c acc => .seq (lit1i c) acc) .eps

/-- One or more repetitions (`+`). -/
def rplus (r : RE) : RE := .seq r (.star r)

/-- Zero or one repetition (`?`, greedy). -/
def ropt (r : RE) : RE := .alt r .eps

/-- Exactly `n` repetitions (`{n}`). -/
def repn (r : RE) : Nat → RE
  | 0 => .eps
  | n + 1 => .seq r (repn r n)

/-- JS `String.prototype.trim` on character lists. -/
def jsTrim (s : List Char) : List Char :=
  ((s.dropWhile jsWhite).reverse.dropWhile jsWhite).reverse

/-- JS `toLowerCase` on character lists. -/
def toLowerL (s : List Char) : List Char := s.map Char.toLower

/-- Value of a digit string read in base 10 (semantics of `parseInt` on a
string that the regexes guarantee to be `\d+`). -/
def natOfDigits (s : List Char) : Nat :=
  s.foldl (fun a c => a * 10 + (c.toNat - 48)) 0

/-- Numbers produced by `parseFloat` in this codebase.  Every string handed
to `parseFloat` has, after comma stripping, the shape `\d*('.'\d\d)?`, so
the value is either NaN (no digits at all) or an exact two-decimal number
recorded as units and hundredths. -/
inductive JsNum where
  | nan : JsNum
  | dec (units hundredths : Nat) : JsNum
deriving DecidableEq, Repr

/-- `parseFloat` on the comma-stripped captures of the price regexes:
leading digits, then an optional fraction introduced by a dot; no digits in
either part yields NaN. -/
def parseFloatJS (s : List Char) : JsNum :=
  let ds := s.takeWhile Char.isDigit
  match s.drop ds.length with
  | '.' :: fs =>
      let fds := fs.takeWhile Char.isDigit
      if ds.length = 0 && fds.length = 0 then .nan
      else .dec (natOfDigits ds) (natOfDigits fds)
  | _ => if ds.length = 0 then .nan else .dec (natOfDigits ds) 0

/-- `str.replace(/,/g, '')`. -/
def stripCommas (s : List Char) : List Char := s.filter (fun c => c ≠ ',')

/-! ## Character classes and patterns of `fallbackParser.ts` -/

/-- The class `[:\s]`. -/
def colonWs (c : Char) : Bool := c = ':' || jsWhite c

/-- The class `[:\s-]`. -/
def colonWsDash (c : Char) : Bool := c = ':' || jsWhite c || c = '-'

/-- The class `[\d,]`. -/
def digComma (c : Char) : Bool := c.isDigit || c = ','

/-- The class `[^\n.]`. -/
def notNlDot (c : Char) : Bool := !(c = '\n' || c = '.')

/-- The non-capturing currency alternative `(?:rs\.?|inr|₹)` (here under the
`i` flag). -/
def currencyRE : RE :=
  .alt (.seq (litsi ['r', 's']) (ropt (lit1 '.')))
    (.alt (litsi ['i', 'n', 'r']) (lit1 '₹'))

/-- The capturing amount `([\d,]+(?:\.\d{2})?)`. -/
def amountRE : RE :=
  .grp (.seq (rplus (.cls digComma))
    (ropt (.seq (lit1 '.') (.seq (.cls Char.isDigit) (.cls Char.isDigit)))))

/-- `/total[:\s]+(?:rs\.?|inr|₹)?\s*([\d,]+(?:\.\d{2})?)/i` -/
def priceP1 : RE :=
  .seq (litsi "total".toList) (.seq (rplus (.cls colonWs))
    (.seq (ropt currencyRE) (.seq (.star (.cls jsWhite)) amountRE)))

/-- `/(?:rs\.?|inr|₹)\s*([\d,]+(?:\.\d{2})?)\s*total/i` -/
def priceP2 : RE :=
  .seq currencyRE (.seq (.star (.cls jsWhite))
    (.seq amountRE (.seq (.star (.cls jsWhite)) (litsi "total".toList))))

/-- `/price[:\s]+(?:rs\.?|inr|₹)?\s*([\d,]+(?:\.\d{2})?)/i` -/
def priceP3 : RE :=
  .seq (litsi "price".toList) (.seq (rplus (.cls colonWs))
    (.seq (ropt currencyRE) (.seq (.star (.cls jsWhite)) amountRE)))

/-- `/cost[:\s]+(?:rs\.?|inr|₹)?\s*([\d,]+(?:\.\d{2})?)/i` -/
def priceP4 : RE :=
  .seq (litsi "cost".toList) (.seq (rplus (.cls colonWs))
    (.seq (ropt currencyRE) (.seq (.star (.cls jsWhite)) amountRE)))

/-- The `pricePatterns` array of `fallbackParser.ts`, in source order. -/
def pricePatterns : List RE := [priceP1, priceP2, priceP3, priceP4]

/-- `/delivery[:\s]+(\d+)\s*days?/i` -/
def deliveryP1 : RE :=
  .seq (litsi "delivery".toList) (.seq (rplus (.cls colonWs))
    (.seq (.grp (rplus (.cls Char.isDigit)))
      (.seq (.star (.cls jsWhite)) (.seq (litsi "day".toList) (ropt (lit1i 's'))))))

/-- `/(\d+)\s*days?\s+delivery/i` -/
def deliveryP2 : RE :=
  .seq (.grp (rplus (.cls Char.isDigit)))
    (.seq (.star (.cls jsWhite))
      (.seq (litsi "day".toList) (.seq (ropt (lit1i 's'))
        (.seq (rplus (.cls jsWhite)) (litsi "delivery".toList)))))

/-- `/timeline[:\s]+(\d+)\s*days?/i` -/
def deliveryP3 : RE :=
  .seq (litsi "timeline".toList) (.seq (rplus (.cls colonWs))
    (.seq (.grp (rplus (.cls Char.isDigit)))
      (.seq (.star (.cls jsWhite)) (.seq (litsi "day".toList) (ropt (lit1i 's'))))))

/-- The `deliveryPatterns` array, in source order. -/
def deliveryPatterns : List RE := [deliveryP1, deliveryP2, deliveryP3]

/-- `/warranty[:\s]+(\d+)\s*years?/i` -/
def warrantyP1 : RE :=
  .seq (litsi "warranty".toList) (.seq (rplus (.cls colonWs))
    (.seq (.grp (rplus (.cls Char.isDigit)))
      (.seq (.star (.cls jsWhite)) (.seq (litsi "year".toList) (ropt (lit1i 's'))))))

/-- `/(\d+)\s*years?\s+warranty/i` -/
def warrantyP2 : RE :=
  .seq (.grp (rplus (.cls Char.isDigit)))
    (.seq (.star (.cls jsWhite))
      (.seq (litsi "year".toList) (.seq (ropt (lit1i 's'))
        (.seq (rplus (.cls jsWhite)) (litsi "warranty".toList)))))

/-- The `warrantyPatterns` array, in source order. -/
def warrantyPatterns : List RE := [warrantyP1, warrantyP2]

/-- `/payment[:\s]+([^\n.]+)/i` -/
def paymentP1 : RE :=
  .seq (litsi "payment".toList) (.seq (rplus (.cls colonWs)) (.grp (rplus (.cls notNlDot))))

/-- `/terms[:\s]+([^\n.]+)/i` -/
def paymentP2 : RE :=
  .seq (litsi "terms".toList) (.seq (rplus (.cls colonWs)) (.grp (rplus (.cls notNlDot))))

/-- The `paymentPatterns` array, in source order. -/
def paymentPatterns : List RE := [paymentP1, paymentP2]

/-- The group-1 capture of the first pattern in the list that matches: the
semantics of each `for (const pattern of ...) { const match = emailBody
.match(pattern); if (match) { ...; break; } }` loop of `fallbackParser.ts`. -/
def firstCapture : List RE → List Char → Option (List Char)
  | [], _ => none
  | p :: rest, s =>
      match jsMatch1 p s with
      | some cap => some cap
      | none => firstCapture rest s

/-- The record built by `fallbackParseProposal`. -/
structure ExtractedData where
  items : List String
  totalPrice : Option JsNum
  deliveryDays : Option Nat
  paymentTerms : Option String
  warrantyYears : Option Nat
  notes : String
deriving DecidableEq, Repr

/-- `fallbackParseProposal` of `src/utils/fallbackParser.ts`: the record
starts with empty `items`, null numeric fields and the first 500 characters
of the body as `notes`, then each field is assigned from the first matching
pattern of its list, exactly as in the source loops. -/
def fallbackParseProposal (emailBody : String) : ExtractedData :=
  let s := emailBody.toList
  let d0 : ExtractedData :=
    { items := [], totalPrice := none, deliveryDays := none,
      paymentTerms := none, warrantyYears := none,
      notes := String.mk (s.take 500) }
  let d1 := match firstCapture pricePatterns s with
    | some cap => { d0 with totalPrice := some (parseFloatJS (stripCommas cap)) }
    | none => d0
  let d2 := match firstCapture deliveryPatterns s with
    | some cap => { d1 with deliveryDays := some (natOfDigits cap) }
    | none => d1
  let d3 := match firstCapture warrantyPatterns s with
    | some cap => { d2 with warrantyYears := some (natOfDigits cap) }
    | none => d2
  let d4 := match firstCapture paymentPatterns s with
    | some cap => { d3 with paymentTerms := some (String.mk ((jsTrim cap).take 100)) }
    | none => d3
  d4

/-! ## `extractRFPId` and `extractEmailAddress` of the inbound controller -/

/-- The class `[a-f0-9]` under the `i` flag. -/
def isHexDigitI (c : Char) : Bool :=
  c.isDigit || (decide ('a' ≤ c) && decide (c ≤ 'f')) || (decide ('A' ≤ c) && decide (c ≤ 'F'))

/-- The UUID shape `[a-f0-9]{8}-[a-f0-9]{4}-[a-f0-9]{4}-[a-f0-9]{4}-[a-f0-9]{12}`. -/
def uuidRE : RE :=
  .seq (repn (.cls isHexDigitI) 8) (.seq (lit1 '-')
    (.seq (repn (.cls isHexDigitI) 4) (.seq (lit1 '-')
      (.seq (repn (.cls isHexDigitI) 4) (.seq (lit1 '-')
        (.seq (repn (.cls isHexDigitI) 4) (.seq (lit1 '-')
          (repn (.cls isHexDigitI) 12))))))))

/-- Pattern 1 of `extractRFPId`: `/RFP\s*ID\s*[:\s-]+(uuid)/i`. -/
def rfpIdP1 : RE :=
  .seq (litsi "RFP".toList) (.seq (.star (.cls jsWhite))
    (.seq (litsi "ID".toList) (.seq (.star (.cls jsWhite))
      (.seq (rplus (.cls colonWsDash)) (.grp uuidRE)))))

/-- Pattern 2 of `extractRFPId`: `/RFP[:\s-]+(uuid)/i`. -/
def rfpIdP2 : RE :=
  .seq (litsi "RFP".toList) (.seq (rplus (.cls colonWsDash)) (.grp uuidRE))

/-- Pattern 3 of `extractRFPId`: a bare `(uuid)` anywhere. -/
def rfpIdP3 : RE := .grp uuidRE

/-- The three-pattern search of `extractRFPId`, on an already-built text. -/
def extractRFPIdFromText (text : List Char) : Option String :=
  match jsMatch1 rfpIdP1 text with
  | some u => some (String.mk u)
  | none =>
    match jsMatch1 rfpIdP2 text with
    | some u => some (String.mk u)
    | none =>
      match jsMatch1 rfpIdP3 text with
      | some u => some (String.mk u)
      | none => none

/-- `extractRFPId` of the inbound controller: the searched text is the
template literal `` `${subject} ${body}` ``, i.e. subject and body joined by
a single space. -/
def extractRFPId (subject body : String) : Option String :=
  extractRFPIdFromText (subject ++ " " ++ body).toList

/-- The angle-bracket pattern `/<(.+?)>/` of `extractEmailAddress`. -/
def emailAngleRE : RE :=
  .seq (lit1 '<') (.seq (.grp (.seq (.cls jsDotP) (.lazyStar (.cls jsDotP)))) (lit1 '>'))

/-- `extractEmailAddress`: the capture of `/<(.+?)>/` lower-cased and
trimmed, or the whole field lower-cased and trimmed when there is no match. -/
def extractEmailAddress (fromField : String) : String :=
  match jsMatch1 emailAngleRE fromField.toList with
  | some cap => String.mk (jsTrim (toLowerL cap))
  | none => String.mk (jsTrim (toLowerL fromField.toList))

/-! ## The HTML-to-text conversion of STEP 4 -/

/-- `/<style[^>]*>.*?<\/style>/gi` -/
def styleBlockRE : RE :=
  .seq (litsi "<style".toList) (.seq (.star (.cls (fun c => !(c = '>'))))
    (.seq (lit1 '>') (.seq (.lazyStar (.cls jsDotP)) (litsi "</style>".toList))))

/-- `/<script[^>]*>.*?<\/script>/gi` -/
def scriptBlockRE : RE :=
  .seq (litsi "<script".toList) (.seq (.star (.cls (fun c => !(c = '>'))))
    (.seq (lit1 '>') (.seq (.lazyStar (.cls jsDotP)) (litsi "</script>".toList))))

/-- `/<[^>]+>/g` -/
def tagRE : RE :=
  .seq (lit1 '<') (.seq (rplus (.cls (fun c => !(c = '>')))) (lit1 '>'))

/-- The replace chain of STEP 4 of `handleInboundEmail`, run when the body
contains no `<` and the full email has an html part: strip style and script
blocks and tags, decode the five HTML entities, collapse whitespace runs to
single spaces and trim. -/
def convertBody (s : String) : String :=
  let l1 := replaceAllG styleBlockRE [] s.toList
  let l2 := replaceAllG scriptBlockRE [] l1
  let l3 := replaceAllG tagRE [' '] l2
  let l4 := replaceAllG (lits "&nbsp;".toList) [' '] l3
  let l5 := replaceAllG (lits "&quot;".toList) ['"'] l4
  let l6 := replaceAllG (lits "&amp;".toList) ['&'] l5
  let l7 := replaceAllG (lits "&lt;".toList) ['<'] l6
  let l8 := replaceAllG (lits "&gt;".toList) ['>'] l7
  let l9 := replaceAllG (rplus (.cls jsWhite)) [' '] l8
  String.mk (jsTrim l9)

/-! ## Data model

Rows mirror the Prisma schema (`InboundEmail` per the migration in the
repository, `Proposal` and `RFPVendor` per their use in the controllers).
Externally supplied identifiers (RFP ids, vendor ids, webhook email ids) are
strings; rows created by the application (`InboundEmail.id`, `Proposal.id`)
take their primary key from a freshness counter `nextId`, standing for the
generated unique ids of the store. -/

structure RFP where
  id : String
  title : String
deriving DecidableEq, Repr

structure Vendor where
  id : String
  name : String
  email : String
deriving DecidableEq, Repr

structure RFPVendor where
  rfpId : String
  vendorId : String
  status : String
deriving DecidableEq, Repr

structure Proposal where
  id : Nat
  rfpId : String
  vendorId : String
  rawEmailBody : String
  extractedData : ExtractedData
  aiScore : Option Int
  aiEvaluation : Option String
  usedFallbackParsing : Bool
deriving DecidableEq, Repr

/-- An `InboundEmail` row; `fromAddr` models the `from` column. -/
structure InboundEmail where
  id : Nat
  emailId : String
  fromAddr : String
  subject : String
  rawBody : String
  rfpId : Option String
  vendorId : Option String
  processed : Bool
  processingError : Option String
  proposalId : Option Nat
deriving DecidableEq, Repr

structure DB where
  rfps : List RFP
  vendors : List Vendor
  rfpVendors : List RFPVendor
  proposals : List Proposal
  inboundEmails : List InboundEmail
  nextId : Nat
deriving DecidableEq, Repr

/-- `prismaClient.rFPVendor.updateMany({ where: { rfpId, vendorId }, data:
{ status } })`. -/
def setRFPVendorStatus (rfpId vendorId st : String) (db : DB) : DB :=
  { db with rfpVendors := db.rfpVendors.map fun rv =>
      if rv.rfpId == rfpId && rv.vendorId == vendorId then { rv with status := st } else rv }

/-- `prismaClient.inboundEmail.update({ where: { id }, data: ... })`. -/
def updateEmailRow (rowId : Nat) (g : InboundEmail → InboundEmail) (db : DB) : DB :=
  { db with inboundEmails := db.inboundEmails.map fun e =>
      if e.id == rowId then g e else e }

/-! ## Webhook payload, oracles and responses -/

/-- The `data` object of a Resend inbound webhook, as read by the handler.
`fromField` models the `from` key; absent keys are `none`. -/
structure EmailData where
  email_id : String
  fromField : String
  subject : Option String
  text : Option String
  html : Option String
deriving DecidableEq, Repr

structure WebhookPayload where
  type : String
  data : EmailData
deriving DecidableEq, Repr

/-- The payload returned by `resend.emails.receiving.get`; the oracle value
`none` stands for both a thrown fetch error and a response without data,
which the handler treats identically. -/
structure FetchedEmail where
  text : Option String
  html : Option String
  subject : Option String
deriving DecidableEq, Repr

/-- What `rfpService.processVendorProposal` extracts and scores when the AI
succeeds (supplied by the LLM oracle). -/
structure AIOutcome where
  extractedData : ExtractedData
  aiScore : Option Int
  aiEvaluation : Option String
deriving DecidableEq, Repr

/-- The JSON responses of the controllers, reduced to the fields the
specification talks about. -/
structure HttpResponse where
  status : Nat
  success : Bool
  message : Option String
  error : Option String
deriving DecidableEq, Repr

/-- JS truthiness of an optional string (`undefined` and `''` are falsy). -/
def truthyS : Option String → Bool
  | some s => !s.isEmpty
  | none => false

/-- JS `a || b || ''` on optional strings. -/
def jsOr (a b : Option String) : String :=
  if truthyS a then a.getD "" else if truthyS b then b.getD "" else ""

/-- The email fields available once STEPs 1–5 of `handleInboundEmail` have
succeeded. -/
structure DerivedEmail where
  emailId : String
  fromAddr : String
  subject : String
  emailBody : String
deriving DecidableEq, Repr

/-- Outcome of STEPs 1–5 (no database access): either an early JSON
response or the derived email fields. -/
inductive DeriveOut where
  | early (r : HttpResponse) : DeriveOut
  | ok (de : DerivedEmail) : DeriveOut
deriving DecidableEq, Repr

/-- STEPs 1–5 of `handleInboundEmail`: choose the body from the webhook
payload or the Resend fetch oracle, reject empty bodies, compute the
subject, convert an entity-encoded body when the full email has an html
part and the body has no `<`, and reject a missing `from`. -/
def deriveEmail (d : EmailData) (fetch : Option FetchedEmail) : DeriveOut :=
  let st :=
    if truthyS d.text || truthyS d.html then (jsOr d.text d.html, d.html, d.subject)
    else
      match fetch with
      | some f => (jsOr f.text f.html, f.html, f.subject)
      | none => ("", d.html, d.subject)
  let emailBody0 := st.1
  if emailBody0.isEmpty || (jsTrim emailBody0.toList).length = 0 then
    .early { status := 200, success := false, message := none,
             error := some "Email body not available. The email may not have been fully processed yet." }
  else
    let subject := if truthyS d.subject then d.subject.getD "" else jsOr st.2.2 none
    let emailBody1 :=
      if !(emailBody0.toList.contains '<') && truthyS st.2.1 then convertBody emailBody0
      else emailBody0
    if d.fromField.isEmpty || emailBody1.isEmpty then
      .early { status := 200, success := false, message := none,
               error := some "Missing required email fields (from or body)" }
    else
      .ok { emailId := d.email_id, fromAddr := d.fromField, subject := subject,
            emailBody := emailBody1 }

/-- Everything known when STEP 10 is about to store the email. -/
structure ResCtx where
  emailId : String
  fromAddr : String
  subject : String
  emailBody : String
  rfpId : String
  rfp : RFP
  vendor : Vendor
deriving DecidableEq, Repr

/-- Outcome of the pre-storage part of the handler. -/
inductive ResolveOut where
  | early (r : HttpResponse) : ResolveOut
  | run (ctx : ResCtx) : ResolveOut
deriving DecidableEq, Repr

/-- STEPs 1–9 of `handleInboundEmail` plus the unique-`emailId` check of the
STEP 10 insert: webhook type filter, body derivation, RFP id extraction, RFP
lookup, vendor lookup; a duplicate `emailId` makes the insert throw, which
the outer catch turns into a 200 failure response.  No path here writes to
the database. -/
def resolveInbound (p : WebhookPayload) (fetch : Option FetchedEmail) (db : DB) : ResolveOut :=
  if p.type ≠ "email.received" then
    .early { status := 200, success := true, message := some "Ignored non-received event", error := none }
  else
    match deriveEmail p.data fetch with
    | .early r => .early r
    | .ok de =>
      match extractRFPId de.subject de.emailBody with
      | none =>
          .early { status := 200, success := true,
                   message := some "Email received but no RFP ID found", error := none }
      | some rfpId =>
        match db.rfps.find? (fun r => r.id == rfpId) with
        | none =>
            .early { status := 200, success := true,
                     message := some "Email received but RFP not found", error := none }
        | some rfp =>
          let vendorEmail := extractEmailAddress de.fromAddr
          match db.vendors.find? (fun v => v.email == vendorEmail) with
          | none =>
              .early { status := 200, success := true,
                       message := some "Email received but no matching vendor found", error := none }
          | some vendor =>
            if db.inboundEmails.any (fun e => e.emailId == de.emailId) then
              .early { status := 200, success := false, message := none,
                       error := some "Unique constraint failed on the fields: (emailId)" }
            else
              .run { emailId := de.emailId, fromAddr := de.fromAddr, subject := de.subject,
                     emailBody := de.emailBody, rfpId := rfpId, rfp := rfp, vendor := vendor }

/-- Modelled from the spec: `rfpService.processVendorProposal` lives in
`src/services/rfpService.ts`, which is not among the provided sources.  Per
the spec's control flow "persist proposal → update vendor/RFP status" and
its data model, on success it persists a Proposal for exactly this RFP and
vendor carrying the extracted payload, the optional AI score and evaluation
and a false fallback flag, sets the matching `RFPVendor` rows to
`RESPONDED`, and returns the new proposal id. -/
def processVendorProposal (rfpId vendorId : String) (body : String) (suc : AIOutcome)
    (db : DB) : Nat × DB :=
  let prop : Proposal :=
    { id := db.nextId, rfpId := rfpId, vendorId := vendorId, rawEmailBody := body,
      extractedData := suc.extractedData, aiScore := suc.aiScore,
      aiEvaluation := suc.aiEvaluation, usedFallbackParsing := false }
  let props1 := db.proposals ++ [prop]
  let db1 : DB := { db with proposals := props1, nextId := db.nextId + 1 }
  (prop.id, setRFPVendorStatus rfpId vendorId "RESPONDED" db1)

/-- `handleInboundEmail` of `src/controllers/inboundEmailController.ts`.
`ai` is the LLM oracle (`Except.error` models `processVendorProposal`
throwing); `fbDb` tells whether the `proposal.create` of the fallback block
succeeds (`Except.error` models it throwing, which the inner catch turns
into error bookkeeping on the stored email).  Every path returns HTTP 200. -/
def handleInboundEmail (p : WebhookPayload) (fetch : Option FetchedEmail)
    (ai : Except String AIOutcome) (fbDb : Except String Unit) (db : DB) :
    HttpResponse × DB :=
  match resolveInbound p fetch db with
  | .early r => (r, db)
  | .run ctx =>
    let stored : InboundEmail :=
      { id := db.nextId, emailId := ctx.emailId, fromAddr := ctx.fromAddr,
        subject := ctx.subject, rawBody := ctx.emailBody, rfpId := some ctx.rfpId,
        vendorId := some ctx.vendor.id, processed := false, processingError := none,
        proposalId := none }
    let emails1 := db.inboundEmails ++ [stored]
    let db1 : DB := { db with inboundEmails := emails1, nextId := db.nextId + 1 }
    match ai with
    | .ok suc =>
        let res := processVendorProposal ctx.rfpId ctx.vendor.id ctx.emailBody suc db1
        let db3 := updateEmailRow stored.id
          (fun e => { e with processed := true, proposalId := some res.1 }) res.2
        ({ status := 200, success := true,
           message := some "Proposal processed successfully", error := none }, db3)
    | .error aiMsg =>
      match fbDb with
      | .ok _ =>
          let fallbackData := fallbackParseProposal ctx.emailBody
          let prop : Proposal :=
            { id := db1.nextId, rfpId := ctx.rfpId, vendorId := ctx.vendor.id,
              rawEmailBody := ctx.emailBody, extractedData := fallbackData,
              aiScore := none, aiEvaluation := none, usedFallbackParsing := true }
          let props2 := db1.proposals ++ [prop]
          let db2 : DB := { db1 with proposals := props2, nextId := db1.nextId + 1 }
          let db3 := setRFPVendorStatus ctx.rfpId ctx.vendor.id "RESPONDED" db2
          let db4 := updateEmailRow stored.id
            (fun e => { e with
                processed := true,
                proposalId := some prop.id,
                processingError := some ("AI quota exceeded. Used fallback parsing. Original error: " ++ aiMsg) }) db3
          ({ status := 200, success := true,
             message := some "Proposal created with fallback parsing (AI quota exceeded)",
             error := none }, db4)
      | .error fbMsg =>
          let db2 := updateEmailRow stored.id
            (fun e => { e with
                processingError := some ("Both AI and fallback parsing failed. AI: " ++ aiMsg ++ ", Fallback: " ++ fbMsg) }) db1
          ({ status := 200, success := false, message := none,
             error := some ("Failed to process vendor proposal: " ++ aiMsg) }, db2)

/-- `deleteProposal` of the proposal controller: 404 and no change when the
id matches no proposal; otherwise delete that row (the store's
`ON DELETE SET NULL` clears matching `InboundEmail.proposalId` links), set
the matching `RFPVendor` rows back to `SENT`, and return 200. -/
def deleteProposal (pid : Nat) (db : DB) : HttpResponse × DB :=
  match db.proposals.find? (fun q => q.id == pid) with
  | none =>
      ({ status := 404, success := false, message := none,
         error := some "Proposal not found" }, db)
  | some prop =>
      let db1 : DB :=
        { db with
            proposals := db.proposals.filter (fun q => !(q.id == pid)),
            inboundEmails := db.inboundEmails.map fun e =>
              if e.proposalId == some pid then { e with proposalId := none } else e }
      let db2 := setRFPVendorStatus prop.rfpId prop.vendorId "SENT" db1
      ({ status := 200, success := true,
         message := some "Proposal deleted successfully", error := none }, db2)

/-! ## The score clamp of `AIService.scoreProposal` (both versions) -/

/-- The final score of `scoreProposal` in `src/services/aiService.ts`:
`Math.min(100, Math.max(0, scoringData.score || 0))`, where a missing score
defaults to 0. -/
def scoreProposalFinal (score : Option Int) : Int :=
  min 100 (max 0 (score.getD 0))

/-- The final score of `scoreProposal` in the other version of the AI
service: `Math.min(100, Math.max(0, scoringData.score))`. -/
def scoreProposalFinalV2 (score : Int) : Int :=
  min 100 (max 0 score)

/-- The `InboundEmail` row stored by STEP 10, given the resolution context. -/
def storedRow (db : DB) (ctx : ResCtx) : InboundEmail :=
  { id := db.nextId, emailId := ctx.emailId, fromAddr := ctx.fromAddr,
    subject := ctx.subject, rawBody := ctx.emailBody, rfpId := some ctx.rfpId,
    vendorId := some ctx.vendor.id, processed := false, processingError := none,
    proposalId := none }

/-- The proposal persisted on the AI success path. -/
def aiProposal (db : DB) (ctx : ResCtx) (suc : AIOutcome) : Proposal :=
  { id := db.nextId + 1, rfpId := ctx.rfpId, vendorId := ctx.vendor.id,
    rawEmailBody := ctx.emailBody, extractedData := suc.extractedData,
    aiScore := suc.aiScore, aiEvaluation := suc.aiEvaluation,
    usedFallbackParsing := false }

/-- The proposal persisted on the fallback path. -/
def fbProposal (db : DB) (ctx : ResCtx) : Proposal :=
  { id := db.nextId + 1, rfpId := ctx.rfpId, vendorId := ctx.vendor.id,
    rawEmailBody := ctx.emailBody, extractedData := fallbackParseProposal ctx.emailBody,
    aiScore := none, aiEvaluation := none, usedFallbackParsing := true }

/-! ## Spec-side definitions used to compare against the code -/

/-- The search prescribed by the C4 claim read literally: the same three
patterns applied to the plain concatenation of subject then body, with no
separator.  `extractRFPId` instead joins them with a single space. -/
def extractRFPIdSpecConcat (subject body : String) : Option String :=
  extractRFPIdFromText (subject ++ body).toList

/-! ## Concrete witness data -/

/-- A well-formed RFP id used by the witness runs. -/
def witnessU : String := "12345678-1234-1234-1234-123456789abc"

/-- A database holding one RFP, one vendor and one `SENT` join row. -/
def witnessDB : DB :=
  { rfps := [{ id := witnessU, title := "Chairs" }],
    vendors := [{ id := "v1", name := "Acme", email := "sales@acme.com" }],
    rfpVendors := [{ rfpId := witnessU, vendorId := "v1", status := "SENT" }],
    proposals := [], inboundEmails := [], nextId := 0 }

/-- A webhook payload carrying the RFP id in its subject. -/
def witnessP : WebhookPayload :=
  { type := "email.received",
    data := { email_id := "em1", fromField := "Acme <Sales@acme.com>",
              subject := some ("Re: RFP ID: " ++ witnessU),
              text := some "Total: Rs. 1,000.50 Delivery: 10 days", html := none } }

/-- The resolution context that `resolveInbound` produces on `witnessP`
over `witnessDB`. -/
def witnessCtx : ResCtx :=
  { emailId := "em1", fromAddr := "Acme <Sales@acme.com>",
    subject := "Re: RFP ID: " ++ witnessU,
    emailBody := "Total: Rs. 1,000.50 Delivery: 10 days",
    rfpId := witnessU, rfp := { id := witnessU, title := "Chairs" },
    vendor := { id := "v1", name := "Acme", email := "sales@acme.com" } }

/-- A payload whose subject and body contain no UUID at all. -/
def witnessPNoId : WebhookPayload :=
  { type := "email.received",
    data := { email_id := "em2", fromField := "Acme <Sales@acme.com>",
              subject := some "Quotation", text := some "Total: Rs. 500", html := none } }

/-- The derived email fields of `witnessPNoId`. -/
def witnessDeNoId : DerivedEmail :=
  { emailId := "em2", fromAddr := "Acme <Sales@acme.com>", subject := "Quotation",
    emailBody := "Total: Rs. 500" }

/-- An LLM success outcome used by the witness runs. -/
def witnessAI : AIOutcome :=
  { extractedData := { items := [], totalPrice := none, deliveryDays := none,
                       paymentTerms := none, warrantyYears := none, notes := "n" },
    aiScore := some 88, aiEvaluation := some "good" }

/-- A stored proposal used by the delete witnesses. -/
def witnessProp : Proposal :=
  { id := 3, rfpId := witnessU, vendorId := "v1", rawEmailBody := "b",
    extractedData := { items := [], totalPrice := none, deliveryDays := none,
                       paymentTerms := none, warrantyYears := none, notes := "b" },
    aiScore := none, aiEvaluation := none, usedFallbackParsing := true }

/-- A database holding `witnessProp` and a `RESPONDED` join row. -/
def witnessDBDel : DB :=
  { rfps := [{ id := witnessU, title := "Chairs" }],
    vendors := [{ id := "v1", name := "Acme", email := "sales@acme.com" }],
    rfpVendors := [{ rfpId := witnessU, vendorId := "v1", status := "RESPONDED" }],
    proposals := [witnessProp], inboundEmails := [], nextId := 5 }

/-- A bound on an optional proposal link: holds when the id, if present, is
below `n`. -/
def optBelow : Option Nat → Nat → Prop
  | none, _ => True
  | some x, n => x < n

instance : ∀ (o : Option Nat) (n : Nat), Decidable (optBelow o n)
  | none, _ => isTrue trivial
  | some x, n => Nat.decLt x n

/-- Well-formedness of the database as enforced by the store: the two
unique indexes of the `InboundEmail` schema (unique external `emailId`,
unique non-null `proposalId`), unique generated row ids, and every
generated id below the freshness counter standing for the id generator. -/
def DBWf (db : DB) : Prop :=
  db.inboundEmails.Pairwise (fun a b => a.emailId ≠ b.emailId) ∧
  db.inboundEmails.Pairwise (fun a b => a.id ≠ b.id) ∧
  db.inboundEmails.Pairwise (fun a b => a.proposalId = none ∨ a.proposalId ≠ b.proposalId) ∧
  db.proposals.Pairwise (fun a b => a.id ≠ b.id) ∧
  (∀ e ∈ db.inboundEmails, e.id < db.nextId ∧ optBelow e.proposalId db.nextId) ∧
  (∀ q ∈ db.proposals, q.id < db.nextId)

/-- A database already holding an `InboundEmail` row with external id
`em1`, used to witness redelivery safety. -/
def witnessDBDup : DB :=
  { rfps := [{ id := witnessU, title := "Chairs" }],
    vendors := [{ id := "v1", name := "Acme", email := "sales@acme.com" }],
    rfpVendors := [{ rfpId := witnessU, vendorId := "v1", status := "SENT" }],
    proposals := [],
    inboundEmails := [{ id := 0, emailId := "em1", fromAddr := "x", subject := "s",
                        rawBody := "b", rfpId := none, vendorId := none,
                        processed := false, processingError := none, proposalId := none }],
    nextId := 1 }

end RFPBackend

namespace RFPBackend

/-! ## Helper lemmas -/

/-- Every early response of `deriveEmail` carries HTTP status 200. -/
theorem deriveEmail_early_status (d : EmailData) (fetch : Option FetchedEmail) :
    ∀ r, deriveEmail d fetch = .early r → r.status = 200 := by
  simp only [deriveEmail]
  intro r
  repeat' split
  all_goals intro h
  all_goals first
    | (cases h; rfl)
    | (simp at h)

/-- Every early response of `resolveInbound` carries HTTP status 200. -/
theorem resolveInbound_early_status (p : WebhookPayload) (fetch : Option FetchedEmail)
    (db : DB) :
    ∀ r, resolveInbound p fetch db = .early r → r.status = 200 := by
  simp only [resolveInbound]
  intro r
  repeat' split
  all_goals intro h
  all_goals (try (cases h; rfl))
  all_goals (try (simp at h))
  all_goals (rename_i heq; subst h; exact deriveEmail_early_status p.data fetch _ heq)

/-! ## Claim theorems -/

/-- C9: in both versions of the AI service, the score returned by
`scoreProposal` for a parsed LLM scoring response is clamped into [0, 100]
by the `Math.min(100, Math.max(0, …))` expression, whatever integer (or, in
the current version, missing value defaulted to 0) the model produced. -/
theorem scoreProposal_clamped :
    ∀ s : Option Int, ∀ t : Int,
      0 ≤ scoreProposalFinal s ∧ scoreProposalFinal s ≤ 100 ∧
      0 ≤ scoreProposalFinalV2 t ∧ scoreProposalFinalV2 t ≤ 100 := by
  intro s t
  unfold scoreProposalFinal scoreProposalFinalV2
  refine ⟨le_min (by norm_num) (le_max_left 0 _), min_le_left _ _,
          le_min (by norm_num) (le_max_left 0 _), min_le_left _ _⟩

/-- C7: a webhook whose `type` is not `email.received` gets the 200 success
response "Ignored non-received event" and the database is returned exactly
as it was: no InboundEmail, Proposal or RFPVendor row is created or
modified. -/
theorem nonReceived_webhook_no_write (p : WebhookPayload) (fetch : Option FetchedEmail)
    (ai : Except String AIOutcome) (fbDb : Except String Unit) (db : DB)
    (h : p.type ≠ "email.received") :
    handleInboundEmail p fetch ai fbDb db =
      ({ status := 200, success := true,
         message := some "Ignored non-received event", error := none }, db) := by
  unfold handleInboundEmail resolveInbound
  rw [if_pos h]

/-- Witness for C7 at a concrete `email.opened` payload. -/
theorem nonReceived_webhook_no_write_witness :
    handleInboundEmail { type := "email.opened", data := witnessP.data } none
        (.error "quota") (.ok ()) witnessDB =
      ({ status := 200, success := true,
         message := some "Ignored non-received event", error := none }, witnessDB) :=
  nonReceived_webhook_no_write _ none (.error "quota") (.ok ()) witnessDB (by decide)

/-- C8: `handleInboundEmail` answers HTTP 200 on every path — early
rejections, unknown RFP or vendor, duplicate email id, AI success, fallback
success and double failure alike; failures are signalled only inside the
JSON body. -/
theorem handleInboundEmail_always_200 (p : WebhookPayload) (fetch : Option FetchedEmail)
    (ai : Except String AIOutcome) (fbDb : Except String Unit) (db : DB) :
    (handleInboundEmail p fetch ai fbDb db).1.status = 200 := by
  unfold handleInboundEmail
  cases hres : resolveInbound p fetch db with
  | early r => exact resolveInbound_early_status p fetch db r hres
  | run ctx =>
    cases ai with
    | ok suc => rfl
    | error aiMsg => cases fbDb with
      | ok u => rfl
      | error fbMsg => rfl

/-- C5: `fallbackParseProposal` keeps the first 500 characters of the body
as `notes`, an empty `items` list, and fills `totalPrice` (comma-stripped
`parseFloat` of the capture), `deliveryDays`, `warrantyYears` (integer
captures) and `paymentTerms` (trimmed capture cut to 100 characters) from
the first pattern of each source-ordered list that matches, leaving the
field null when none matches. -/
theorem fallbackParseProposal_fields (body : String) :
    (fallbackParseProposal body).notes = String.mk (body.toList.take 500) ∧
    (fallbackParseProposal body).items = [] ∧
    (fallbackParseProposal body).totalPrice =
      (firstCapture pricePatterns body.toList).map (fun cap => parseFloatJS (stripCommas cap)) ∧
    (fallbackParseProposal body).deliveryDays =
      (firstCapture deliveryPatterns body.toList).map natOfDigits ∧
    (fallbackParseProposal body).warrantyYears =
      (firstCapture warrantyPatterns body.toList).map natOfDigits ∧
    (fallbackParseProposal body).paymentTerms =
      (firstCapture paymentPatterns body.toList).map
        (fun cap => String.mk ((jsTrim cap).take 100)) := by
  unfold fallbackParseProposal
  cases h1 : firstCapture pricePatterns body.data <;>
    cases h2 : firstCapture deliveryPatterns body.data <;>
      cases h3 : firstCapture warrantyPatterns body.data <;>
        cases h4 : firstCapture paymentPatterns body.data <;>
          simp [h1, h2, h3, h4]

/-- C4 counterexample: read literally, the claim searches the plain
concatenation of subject then body.  On subject `"deadbeef"` and body
`"-dead-beef-dead-deadbeefdead"` the plain concatenation contains a bare
UUID, so the claimed search returns it, while `extractRFPId` — which joins
subject and body with a single space, per the template literal in the
source — returns null. -/
theorem extractRFPId_concat_counterexample :
    extractRFPId "deadbeef" "-dead-beef-dead-deadbeefdead" = none ∧
    extractRFPIdSpecConcat "deadbeef" "-dead-beef-dead-deadbeefdead" =
      some "deadbeef-dead-beef-dead-deadbeefdead" := by
  constructor <;> decide

/-- C4 (amended): `extractRFPId` searches subject and body joined by a
single space and returns the capture of the `RFP ID:` pattern if it
matches, otherwise of the `RFP-`/`RFP ` pattern, otherwise the first bare
UUID, otherwise null; and a received email on which it returns null gets
the "no RFP ID found" response with no database record created or
modified. -/
theorem extractRFPId_priority_and_no_write :
    (∀ subject body : String,
      extractRFPId subject body =
        ((jsMatch1 rfpIdP1 (subject ++ " " ++ body).toList).orElse fun _ =>
          (jsMatch1 rfpIdP2 (subject ++ " " ++ body).toList).orElse fun _ =>
            jsMatch1 rfpIdP3 (subject ++ " " ++ body).toList).map
          (fun u => String.mk u)) ∧
    (∀ (p : WebhookPayload) (fetch : Option FetchedEmail) (ai : Except String AIOutcome)
        (fbDb : Except String Unit) (db : DB) (de : DerivedEmail),
      p.type = "email.received" →
      deriveEmail p.data fetch = .ok de →
      extractRFPId de.subject de.emailBody = none →
      handleInboundEmail p fetch ai fbDb db =
        ({ status := 200, success := true,
           message := some "Email received but no RFP ID found", error := none }, db)) := by
  constructor
  · intro subject body
    unfold extractRFPId extractRFPIdFromText
    cases h1 : jsMatch1 rfpIdP1 (subject ++ " " ++ body).toList <;>
      cases h2 : jsMatch1 rfpIdP2 (subject ++ " " ++ body).toList <;>
        cases h3 : jsMatch1 rfpIdP3 (subject ++ " " ++ body).toList <;>
          simp [h1, h2, h3, Option.orElse]
  · intro p fetch ai fbDb db de hty hde hex
    unfold handleInboundEmail resolveInbound
    rw [if_neg (fun hne => hne hty), hde]
    dsimp only
    rw [hex]

/-- Witness for the amended C4: the priority equation at concrete strings,
and a concrete received email without an RFP id that leaves the database
untouched. -/
theorem extractRFPId_priority_and_no_write_witness :
    (extractRFPId "a" "b" =
      ((jsMatch1 rfpIdP1 ("a" ++ " " ++ "b").toList).orElse fun _ =>
        (jsMatch1 rfpIdP2 ("a" ++ " " ++ "b").toList).orElse fun _ =>
          jsMatch1 rfpIdP3 ("a" ++ " " ++ "b").toList).map
        (fun u => String.mk u)) ∧
    handleInboundEmail witnessPNoId none (.error "quota") (.ok ()) witnessDB =
      ({ status := 200, success := true,
         message := some "Email received but no RFP ID found", error := none }, witnessDB) :=
  ⟨extractRFPId_priority_and_no_write.1 "a" "b",
   extractRFPId_priority_and_no_write.2 witnessPNoId none (.error "quota") (.ok ())
     witnessDB witnessDeNoId rfl (by decide) (by decide)⟩

/-- C10: `deleteProposal` on an id with no matching proposal answers 404
and changes nothing; on an existing id it answers 200, removes exactly the
rows with that proposal id from the proposals table, reverts the matching
`RFPVendor` rows to `SENT`, and leaves RFPs, vendors and the id counter
unchanged (matching email links are cleared by the store's
`ON DELETE SET NULL`). -/
theorem deleteProposal_behavior :
    (∀ (pid : Nat) (db : DB), db.proposals.find? (fun q => q.id == pid) = none →
      deleteProposal pid db =
        ({ status := 404, success := false, message := none,
           error := some "Proposal not found" }, db)) ∧
    (∀ (pid : Nat) (db : DB) (prop : Proposal),
      db.proposals.find? (fun q => q.id == pid) = some prop →
      (deleteProposal pid db).1.status = 200 ∧
      (deleteProposal pid db).1.success = true ∧
      (deleteProposal pid db).2.proposals = db.proposals.filter (fun q => !(q.id == pid)) ∧
      (deleteProposal pid db).2.rfpVendors = db.rfpVendors.map
        (fun rv => if rv.rfpId == prop.rfpId && rv.vendorId == prop.vendorId
          then { rv with status := "SENT" } else rv) ∧
      (deleteProposal pid db).2.rfps = db.rfps ∧
      (deleteProposal pid db).2.vendors = db.vendors ∧
      (deleteProposal pid db).2.nextId = db.nextId) := by
  constructor
  · intro pid db h
    unfold deleteProposal
    rw [h]
  · intro pid db prop h
    unfold deleteProposal
    rw [h]
    exact ⟨rfl, rfl, rfl, rfl, rfl, rfl, rfl⟩

/-- Witness for C10 on a concrete database with one proposal of id 3: id 99
is rejected with 404 and no change, id 3 is deleted with the join row
reverted. -/
theorem deleteProposal_behavior_witness :
    deleteProposal 99 witnessDBDel =
      ({ status := 404, success := false, message := none,
         error := some "Proposal not found" }, witnessDBDel) ∧
    ((deleteProposal 3 witnessDBDel).1.status = 200 ∧
     (deleteProposal 3 witnessDBDel).1.success = true ∧
     (deleteProposal 3 witnessDBDel).2.proposals =
       witnessDBDel.proposals.filter (fun q => !(q.id == 3)) ∧
     (deleteProposal 3 witnessDBDel).2.rfpVendors = witnessDBDel.rfpVendors.map
       (fun rv => if rv.rfpId == witnessProp.rfpId && rv.vendorId == witnessProp.vendorId
         then { rv with status := "SENT" } else rv) ∧
     (deleteProposal 3 witnessDBDel).2.rfps = witnessDBDel.rfps ∧
     (deleteProposal 3 witnessDBDel).2.vendors = witnessDBDel.vendors ∧
     (deleteProposal 3 witnessDBDel).2.nextId = witnessDBDel.nextId) :=
  ⟨deleteProposal_behavior.1 99 witnessDBDel (by decide),
   deleteProposal_behavior.2 3 witnessDBDel witnessProp (by decide)⟩

/-- On the run branch with a successful LLM call, the handler's output is:
store the email, persist the AI proposal, mark the join rows `RESPONDED`,
then link the stored email to the proposal. -/
theorem handle_run_aiok {p : WebhookPayload} {fetch : Option FetchedEmail} {db : DB}
    {ctx : ResCtx} (hres : resolveInbound p fetch db = .run ctx) (suc : AIOutcome)
    (u : Unit) :
    handleInboundEmail p fetch (.ok suc) (.ok u) db =
      ({ status := 200, success := true,
         message := some "Proposal processed successfully", error := none },
       updateEmailRow db.nextId
         (fun e => { e with processed := true, proposalId := some (db.nextId + 1) })
         (setRFPVendorStatus ctx.rfpId ctx.vendor.id "RESPONDED"
           { db with
               inboundEmails := db.inboundEmails ++ [storedRow db ctx],
               proposals := db.proposals ++ [aiProposal db ctx suc],
               nextId := db.nextId + 2 })) := by
  unfold handleInboundEmail
  rw [hres]
  rfl

/-- On the run branch with a failed LLM call and a successful fallback
insert, the handler's output is: store the email, persist the fallback
proposal, mark the join rows `RESPONDED`, then link the stored email and
record the AI error. -/
theorem handle_run_fallback {p : WebhookPayload} {fetch : Option FetchedEmail} {db : DB}
    {ctx : ResCtx} (hres : resolveInbound p fetch db = .run ctx) (aiMsg : String)
    (u : Unit) :
    handleInboundEmail p fetch (.error aiMsg) (.ok u) db =
      ({ status := 200, success := true,
         message := some "Proposal created with fallback parsing (AI quota exceeded)",
         error := none },
       updateEmailRow db.nextId
         (fun e => { e with
             processed := true, proposalId := some (db.nextId + 1),
             processingError := some ("AI quota exceeded. Used fallback parsing. Original error: " ++ aiMsg) })
         (setRFPVendorStatus ctx.rfpId ctx.vendor.id "RESPONDED"
           { db with
               inboundEmails := db.inboundEmails ++ [storedRow db ctx],
               proposals := db.proposals ++ [fbProposal db ctx],
               nextId := db.nextId + 2 })) := by
  unfold handleInboundEmail
  rw [hres]
  rfl

/-- On the run branch with both tiers failing, the handler's output is:
store the email, record the double failure on it, and change nothing else. -/
theorem handle_run_doubleFail {p : WebhookPayload} {fetch : Option FetchedEmail} {db : DB}
    {ctx : ResCtx} (hres : resolveInbound p fetch db = .run ctx) (aiMsg fbMsg : String) :
    handleInboundEmail p fetch (.error aiMsg) (.error fbMsg) db =
      ({ status := 200, success := false, message := none,
         error := some ("Failed to process vendor proposal: " ++ aiMsg) },
       updateEmailRow db.nextId
         (fun e => { e with
             processingError := some ("Both AI and fallback parsing failed. AI: " ++ aiMsg ++ ", Fallback: " ++ fbMsg) })
         { db with
             inboundEmails := db.inboundEmails ++ [storedRow db ctx],
             nextId := db.nextId + 1 }) := by
  unfold handleInboundEmail
  rw [hres]
  rfl

/-- A freshly appended row survives a keyed row update: the updated image
of `stored` is in the updated table. -/
theorem mem_update_append (l : List InboundEmail) (stored : InboundEmail)
    (g : InboundEmail → InboundEmail) :
    g stored ∈ (l ++ [stored]).map fun e => if e.id == stored.id then g e else e := by
  have h1 : stored ∈ l ++ [stored] :=
    List.mem_append_right l (List.mem_singleton_self stored)
  exact List.mem_map.mpr ⟨stored, h1, by simp⟩

/-- C1: whenever a webhook reaches the extraction stage (the pre-storage
steps resolved and the insert succeeds), the raw email is persisted as an
`InboundEmail` row whatever the LLM and fallback oracles do; and when both
extraction tiers fail, the stored row remains with `processed = false` and
a `processingError` string recorded. -/
theorem inboundEmail_persisted_despite_failures
    (p : WebhookPayload) (fetch : Option FetchedEmail) (db : DB) (ctx : ResCtx)
    (hres : resolveInbound p fetch db = .run ctx) :
    (∀ (ai : Except String AIOutcome) (fbDb : Except String Unit),
      ∃ e, e ∈ (handleInboundEmail p fetch ai fbDb db).2.inboundEmails ∧
        e.emailId = ctx.emailId ∧ e.rawBody = ctx.emailBody) ∧
    (∀ aiMsg fbMsg : String,
      ∃ e, e ∈ (handleInboundEmail p fetch (.error aiMsg) (.error fbMsg) db).2.inboundEmails ∧
        e.emailId = ctx.emailId ∧ e.rawBody = ctx.emailBody ∧ e.processed = false ∧
        ∃ s, e.processingError = some s) := by
  constructor
  · intro ai fbDb
    cases ai with
    | ok suc =>
        cases fbDb with
        | ok u =>
            rw [handle_run_aiok hres suc u]
            exact ⟨_, mem_update_append db.inboundEmails (storedRow db ctx) _, rfl, rfl⟩
        | error fbMsg =>
            have hsame : handleInboundEmail p fetch (.ok suc) (.error fbMsg) db =
                handleInboundEmail p fetch (.ok suc) (.ok ()) db := by
              unfold handleInboundEmail
              rw [hres]
            rw [hsame, handle_run_aiok hres suc ()]
            exact ⟨_, mem_update_append db.inboundEmails (storedRow db ctx) _, rfl, rfl⟩
    | error aiMsg =>
        cases fbDb with
        | ok u =>
            rw [handle_run_fallback hres aiMsg u]
            exact ⟨_, mem_update_append db.inboundEmails (storedRow db ctx) _, rfl, rfl⟩
        | error fbMsg =>
            rw [handle_run_doubleFail hres aiMsg fbMsg]
            exact ⟨_, mem_update_append db.inboundEmails (storedRow db ctx) _, rfl, rfl⟩
  · intro aiMsg fbMsg
    rw [handle_run_doubleFail hres aiMsg fbMsg]
    exact ⟨_, mem_update_append db.inboundEmails (storedRow db ctx) _, rfl, rfl, rfl, _, rfl⟩

/-- Witness for C1: a concrete webhook over a one-RFP, one-vendor database,
with both the LLM and the fallback insert failing. -/
theorem inboundEmail_persisted_despite_failures_witness :
    ∃ e, e ∈ (handleInboundEmail witnessP none (.error "quota") (.error "db down") witnessDB).2.inboundEmails ∧
      e.emailId = witnessCtx.emailId ∧ e.rawBody = witnessCtx.emailBody ∧ e.processed = false ∧
      ∃ s, e.processingError = some s :=
  (inboundEmail_persisted_despite_failures witnessP none witnessDB witnessCtx (by decide)).2
    "quota" "db down"

/-- C2: when `processVendorProposal` throws, the handler creates a proposal
whose `extractedData` is exactly `fallbackParseProposal` of the email body,
with null AI score and evaluation and the fallback flag set, and updates
the stored email to processed with that proposal's id and a
`processingError` recording the AI error. -/
theorem fallback_proposal_on_ai_error
    (p : WebhookPayload) (fetch : Option FetchedEmail) (db : DB) (ctx : ResCtx)
    (aiMsg : String) (hres : resolveInbound p fetch db = .run ctx) :
    ∃ prop, prop ∈ (handleInboundEmail p fetch (.error aiMsg) (.ok ()) db).2.proposals ∧
      prop.extractedData = fallbackParseProposal ctx.emailBody ∧
      prop.aiScore = none ∧ prop.aiEvaluation = none ∧ prop.usedFallbackParsing = true ∧
      ∃ e, e ∈ (handleInboundEmail p fetch (.error aiMsg) (.ok ()) db).2.inboundEmails ∧
        e.emailId = ctx.emailId ∧ e.processed = true ∧ e.proposalId = some prop.id ∧
        e.processingError =
          some ("AI quota exceeded. Used fallback parsing. Original error: " ++ aiMsg) := by
  rw [handle_run_fallback hres aiMsg ()]
  refine ⟨fbProposal db ctx, ?_, rfl, rfl, rfl, rfl, ?_⟩
  · exact List.mem_append_right _ (List.mem_singleton_self _)
  · exact ⟨_, mem_update_append db.inboundEmails (storedRow db ctx) _, rfl, rfl, rfl, rfl⟩

/-- Witness for C2 on the concrete webhook with a thrown LLM call. -/
theorem fallback_proposal_on_ai_error_witness :
    ∃ prop, prop ∈ (handleInboundEmail witnessP none (.error "quota") (.ok ()) witnessDB).2.proposals ∧
      prop.extractedData = fallbackParseProposal witnessCtx.emailBody ∧
      prop.aiScore = none ∧ prop.aiEvaluation = none ∧ prop.usedFallbackParsing = true ∧
      ∃ e, e ∈ (handleInboundEmail witnessP none (.error "quota") (.ok ()) witnessDB).2.inboundEmails ∧
        e.emailId = witnessCtx.emailId ∧ e.processed = true ∧ e.proposalId = some prop.id ∧
        e.processingError =
          some ("AI quota exceeded. Used fallback parsing. Original error: " ++ "quota") :=
  fallback_proposal_on_ai_error witnessP none witnessDB witnessCtx "quota" (by decide)

/-- C6: both proposal-creating paths of the handler set every `RFPVendor`
row joining the resolved RFP and vendor to `RESPONDED` (and touch no other
join row); deleting a proposal sets the rows joining its RFP and vendor
back to `SENT`.  `processVendorProposal` itself is modelled from the spec,
its source not being among the provided files. -/
theorem rfpVendor_status_transitions :
    (∀ (p : WebhookPayload) (fetch : Option FetchedEmail) (db : DB) (ctx : ResCtx)
        (suc : AIOutcome) (u : Unit), resolveInbound p fetch db = .run ctx →
      (handleInboundEmail p fetch (.ok suc) (.ok u) db).2.rfpVendors =
        db.rfpVendors.map (fun rv =>
          if rv.rfpId == ctx.rfpId && rv.vendorId == ctx.vendor.id
          then { rv with status := "RESPONDED" } else rv)) ∧
    (∀ (p : WebhookPayload) (fetch : Option FetchedEmail) (db : DB) (ctx : ResCtx)
        (aiMsg : String) (u : Unit), resolveInbound p fetch db = .run ctx →
      (handleInboundEmail p fetch (.error aiMsg) (.ok u) db).2.rfpVendors =
        db.rfpVendors.map (fun rv =>
          if rv.rfpId == ctx.rfpId && rv.vendorId == ctx.vendor.id
          then { rv with status := "RESPONDED" } else rv)) ∧
    (∀ (pid : Nat) (db : DB) (prop : Proposal),
      db.proposals.find? (fun q => q.id == pid) = some prop →
      (deleteProposal pid db).2.rfpVendors =
        db.rfpVendors.map (fun rv =>
          if rv.rfpId == prop.rfpId && rv.vendorId == prop.vendorId
          then { rv with status := "SENT" } else rv)) := by
  refine ⟨?_, ?_, ?_⟩
  · intro p fetch db ctx suc u hres
    rw [handle_run_aiok hres suc u]
    rfl
  · intro p fetch db ctx aiMsg u hres
    rw [handle_run_fallback hres aiMsg u]
    rfl
  · intro pid db prop h
    unfold deleteProposal
    rw [h]
    rfl

/-- Witness for C6: concrete runs of both creating paths and of the
delete, with the join row observed in the claimed state. -/
theorem rfpVendor_status_transitions_witness :
    (handleInboundEmail witnessP none (.ok witnessAI) (.ok ()) witnessDB).2.rfpVendors =
      witnessDB.rfpVendors.map (fun rv =>
        if rv.rfpId == witnessCtx.rfpId && rv.vendorId == witnessCtx.vendor.id
        then { rv with status := "RESPONDED" } else rv) ∧
    (handleInboundEmail witnessP none (.error "quota") (.ok ()) witnessDB).2.rfpVendors =
      witnessDB.rfpVendors.map (fun rv =>
        if rv.rfpId == witnessCtx.rfpId && rv.vendorId == witnessCtx.vendor.id
        then { rv with status := "RESPONDED" } else rv) ∧
    (deleteProposal 3 witnessDBDel).2.rfpVendors =
      witnessDBDel.rfpVendors.map (fun rv =>
        if rv.rfpId == witnessProp.rfpId && rv.vendorId == witnessProp.vendorId
        then { rv with status := "SENT" } else rv) :=
  ⟨rfpVendor_status_transitions.1 witnessP none witnessDB witnessCtx witnessAI () (by decide),
   rfpVendor_status_transitions.2.1 witnessP none witnessDB witnessCtx "quota" () (by decide),
   rfpVendor_status_transitions.2.2 3 witnessDBDel witnessProp (by decide)⟩

/-- `optBelow` is monotone in the bound. -/
theorem optBelow_mono {o : Option Nat} {n m : Nat} (h : optBelow o n) (hnm : n ≤ m) :
    optBelow o m := by
  cases o with
  | none => trivial
  | some x => exact Nat.lt_of_lt_of_le h hnm

/-- A successful body derivation carries the webhook email id through. -/
theorem deriveEmail_ok_emailId (d : EmailData) (fetch : Option FetchedEmail) :
    ∀ de, deriveEmail d fetch = .ok de → de.emailId = d.email_id := by
  simp only [deriveEmail]
  intro de
  repeat' split
  all_goals intro h
  all_goals first
    | (cases h; rfl)
    | (simp at h)

/-- When the handler reaches the storage step, the context email id is the
webhook email id and no stored row already carries it (otherwise the unique
index would have made the insert throw). -/
theorem resolveInbound_run_facts (p : WebhookPayload) (fetch : Option FetchedEmail)
    (db : DB) :
    ∀ ctx, resolveInbound p fetch db = .run ctx →
      ctx.emailId = p.data.email_id ∧ ∀ e ∈ db.inboundEmails, e.emailId ≠ ctx.emailId := by
  simp only [resolveInbound]
  intro ctx
  repeat' split
  all_goals intro h
  all_goals (try (simp at h))
  cases h
  rename_i hde hrfp hvendor hany
  constructor
  · exact deriveEmail_ok_emailId p.data fetch _ (by assumption)
  · intro e he heq
    apply hany
    rw [List.any_eq_true]
    exact ⟨e, he, beq_iff_eq.mpr heq⟩

/-- `setRFPVendorStatus` touches only the join table, so well-formedness carries over. -/
theorem DBWf_setStatus (r v st : String) (db : DB) (h : DBWf db) :
    DBWf (setRFPVendorStatus r v st db) := h

/-- Storing the raw email preserves well-formedness when its external id is
fresh: the new row takes the counter as id and has no proposal link. -/
theorem DBWf_store (db : DB) (ctx : ResCtx) (h : DBWf db)
    (hfresh : ∀ e ∈ db.inboundEmails, e.emailId ≠ ctx.emailId) :
    DBWf { db with
             inboundEmails := db.inboundEmails ++ [storedRow db ctx],
             nextId := db.nextId + 1 } := by
  obtain ⟨h1, h2, h3, h4, h5, h6⟩ := h
  refine ⟨?_, ?_, ?_, h4, ?_, ?_⟩
  · rw [List.pairwise_append]
    refine ⟨h1, List.pairwise_singleton _ _, fun a ha b hb => ?_⟩
    rw [List.mem_singleton] at hb
    subst hb
    exact hfresh a ha
  · rw [List.pairwise_append]
    refine ⟨h2, List.pairwise_singleton _ _, fun a ha b hb => ?_⟩
    rw [List.mem_singleton] at hb
    subst hb
    exact Nat.ne_of_lt (h5 a ha).1
  · rw [List.pairwise_append]
    refine ⟨h3, List.pairwise_singleton _ _, fun a ha b hb => ?_⟩
    rw [List.mem_singleton] at hb
    subst hb
    cases hpa : a.proposalId with
    | none => exact Or.inl rfl
    | some x => exact Or.inr (by simp [storedRow])
  · intro e he
    rw [List.mem_append] at he
    cases he with
    | inl hl => exact ⟨Nat.lt_succ_of_lt (h5 e hl).1, optBelow_mono (h5 e hl).2 (Nat.le_succ _)⟩
    | inr hr =>
        rw [List.mem_singleton] at hr
        subst hr
        exact ⟨Nat.lt_succ_self _, trivial⟩
  · intro q hq
    exact Nat.lt_succ_of_lt (h6 q hq)

/-- Appending a proposal whose id is the counter preserves well-formedness. -/
theorem DBWf_addProposal (db : DB) (pr : Proposal) (hid : pr.id = db.nextId) (h : DBWf db) :
    DBWf { db with proposals := db.proposals ++ [pr], nextId := db.nextId + 1 } := by
  obtain ⟨h1, h2, h3, h4, h5, h6⟩ := h
  refine ⟨h1, h2, h3, ?_, ?_, ?_⟩
  · rw [List.pairwise_append]
    refine ⟨h4, List.pairwise_singleton _ _, fun a ha b hb => ?_⟩
    rw [List.mem_singleton] at hb
    subst hb
    rw [hid]
    exact Nat.ne_of_lt (h6 a ha)
  · intro e he
    exact ⟨Nat.lt_succ_of_lt (h5 e he).1, optBelow_mono (h5 e he).2 (Nat.le_succ _)⟩
  · intro q hq
    rw [List.mem_append] at hq
    cases hq with
    | inl hl => exact Nat.lt_succ_of_lt (h6 q hl)
    | inr hr =>
        rw [List.mem_singleton] at hr
        subst hr
        rw [hid]
        exact Nat.lt_succ_self _


/-- A keyed row update that does not move the id, external id or proposal
link of any row preserves well-formedness. -/
theorem DBWf_update_keepPid (db : DB) (sid : Nat) (g : InboundEmail → InboundEmail)
    (hg_id : ∀ e, (g e).id = e.id) (hg_em : ∀ e, (g e).emailId = e.emailId)
    (hg_pid : ∀ e, (g e).proposalId = e.proposalId) (h : DBWf db) :
    DBWf (updateEmailRow sid g db) := by
  unfold updateEmailRow
  obtain ⟨h1, h2, h3, h4, h5, h6⟩ := h
  have hu_id : ∀ e : InboundEmail, (if e.id == sid then g e else e).id = e.id := by
    intro e
    split
    · exact hg_id e
    · rfl
  have hu_em : ∀ e : InboundEmail, (if e.id == sid then g e else e).emailId = e.emailId := by
    intro e
    split
    · exact hg_em e
    · rfl
  have hu_pid : ∀ e : InboundEmail,
      (if e.id == sid then g e else e).proposalId = e.proposalId := by
    intro e
    split
    · exact hg_pid e
    · rfl
  refine ⟨?_, ?_, ?_, h4, ?_, h6⟩
  all_goals (try dsimp only)
  · rw [List.pairwise_map]
    exact h1.imp (fun {a b} hab => by rw [hu_em a, hu_em b]; exact hab)
  · rw [List.pairwise_map]
    exact h2.imp (fun {a b} hab => by rw [hu_id a, hu_id b]; exact hab)
  · rw [List.pairwise_map]
    exact h3.imp (fun {a b} hab => by rw [hu_pid a, hu_pid b]; exact hab)
  · intro e he
    rw [List.mem_map] at he
    obtain ⟨a, ha, rfl⟩ := he
    rw [hu_id a, hu_pid a]
    exact h5 a ha

/-- A keyed row update that sets the proposal link of the selected row to a
fresh id (below the counter, above every existing link) preserves
well-formedness. -/
theorem DBWf_update_setPid (db : DB) (sid pid : Nat) (g : InboundEmail → InboundEmail)
    (hg_id : ∀ e, (g e).id = e.id) (hg_em : ∀ e, (g e).emailId = e.emailId)
    (hg_pid : ∀ e, (g e).proposalId = some pid)
    (hpid_lt : pid < db.nextId)
    (hpid_fresh : ∀ e ∈ db.inboundEmails, optBelow e.proposalId pid)
    (h : DBWf db) :
    DBWf (updateEmailRow sid g db) := by
  unfold updateEmailRow
  obtain ⟨h1, h2, h3, h4, h5, h6⟩ := h
  have hu_id : ∀ e : InboundEmail, (if e.id == sid then g e else e).id = e.id := by
    intro e
    split
    · exact hg_id e
    · rfl
  have hu_em : ∀ e : InboundEmail, (if e.id == sid then g e else e).emailId = e.emailId := by
    intro e
    split
    · exact hg_em e
    · rfl
  refine ⟨?_, ?_, ?_, h4, ?_, h6⟩
  all_goals (try dsimp only)
  · rw [List.pairwise_map]
    exact h1.imp (fun {a b} hab => by rw [hu_em a, hu_em b]; exact hab)
  · rw [List.pairwise_map]
    exact h2.imp (fun {a b} hab => by rw [hu_id a, hu_id b]; exact hab)
  · rw [List.pairwise_map]
    refine (h2.and h3).imp_of_mem (fun {a b} ha hb hab => ?_)
    obtain ⟨hidne, hpidrel⟩ := hab
    by_cases hA : (a.id == sid) = true
    · by_cases hB : (b.id == sid) = true
      · exact absurd ((beq_iff_eq.mp hA).trans (beq_iff_eq.mp hB).symm) hidne
      · right
        simp only [hA, hB, if_true, Bool.false_eq_true, if_false, hg_pid a]
        cases hpb : b.proposalId with
        | none => simp
        | some y =>
            have hyb := hpid_fresh b hb
            rw [hpb] at hyb
            exact fun hc => absurd (Option.some.inj hc).symm (Nat.ne_of_lt hyb)
    · by_cases hB : (b.id == sid) = true
      · simp only [hA, hB, Bool.false_eq_true, if_false, if_true, hg_pid b]
        cases hpa : a.proposalId with
        | none => exact Or.inl rfl
        | some x =>
            have hxa := hpid_fresh a ha
            rw [hpa] at hxa
            right
            exact fun hc => absurd (Option.some.inj hc) (Nat.ne_of_lt hxa)
      · simp only [hA, hB, Bool.false_eq_true, if_false]
        exact hpidrel
  · intro e he
    rw [List.mem_map] at he
    obtain ⟨a, ha, rfl⟩ := he
    refine ⟨by rw [hu_id a]; exact (h5 a ha).1, ?_⟩
    by_cases hA : (a.id == sid) = true
    · simp only [hA, if_true, hg_pid a]
      exact hpid_lt
    · simp only [hA, Bool.false_eq_true, if_false]
      exact (h5 a ha).2

/-- C3: runs of the inbound handler preserve the uniqueness invariants of
the `InboundEmail` table — distinct rows have distinct external email ids
and distinct non-null proposal links, so each email maps to at most one
proposal — and a redelivered webhook whose email id is already stored
leaves the database exactly as it was (the insert throws on the unique
index before any write). -/
theorem inboundEmail_uniqueness (p : WebhookPayload) (fetch : Option FetchedEmail)
    (ai : Except String AIOutcome) (fbDb : Except String Unit) (db : DB) (h : DBWf db) :
    DBWf (handleInboundEmail p fetch ai fbDb db).2 ∧
    ((∃ e ∈ db.inboundEmails, e.emailId = p.data.email_id) →
      (handleInboundEmail p fetch ai fbDb db).2 = db) := by
  cases hres : resolveInbound p fetch db with
  | early r =>
      have hdb : (handleInboundEmail p fetch ai fbDb db).2 = db := by
        unfold handleInboundEmail
        rw [hres]
      rw [hdb]
      exact ⟨h, fun _ => rfl⟩
  | run ctx =>
      obtain ⟨hid, hfresh⟩ := resolveInbound_run_facts p fetch db ctx hres
      have hA : DBWf { db with
          inboundEmails := db.inboundEmails ++ [storedRow db ctx],
          nextId := db.nextId + 1 } := DBWf_store db ctx h hfresh
      have hpidsA : ∀ e ∈ db.inboundEmails ++ [storedRow db ctx],
          optBelow e.proposalId (db.nextId + 1) := by
        intro e he
        rw [List.mem_append] at he
        cases he with
        | inl hl => exact optBelow_mono (h.2.2.2.2.1 e hl).2 (Nat.le_succ _)
        | inr hr =>
            rw [List.mem_singleton] at hr
            subst hr
            trivial
      constructor
      · cases ai with
        | ok suc =>
            cases fbDb with
            | ok u =>
                rw [handle_run_aiok hres suc u]
                exact DBWf_update_setPid _ _ (db.nextId + 1) _ (fun e => rfl) (fun e => rfl)
                  (fun e => rfl) (Nat.lt_succ_self _) hpidsA
                  (DBWf_setStatus _ _ _ _ (DBWf_addProposal _ (aiProposal db ctx suc) rfl hA))
            | error fbMsg =>
                have hsame : handleInboundEmail p fetch (.ok suc) (.error fbMsg) db =
                    handleInboundEmail p fetch (.ok suc) (.ok ()) db := by
                  unfold handleInboundEmail
                  rw [hres]
                rw [hsame, handle_run_aiok hres suc ()]
                exact DBWf_update_setPid _ _ (db.nextId + 1) _ (fun e => rfl) (fun e => rfl)
                  (fun e => rfl) (Nat.lt_succ_self _) hpidsA
                  (DBWf_setStatus _ _ _ _ (DBWf_addProposal _ (aiProposal db ctx suc) rfl hA))
        | error aiMsg =>
            cases fbDb with
            | ok u =>
                rw [handle_run_fallback hres aiMsg u]
                exact DBWf_update_setPid _ _ (db.nextId + 1) _ (fun e => rfl) (fun e => rfl)
                  (fun e => rfl) (Nat.lt_succ_self _) hpidsA
                  (DBWf_setStatus _ _ _ _ (DBWf_addProposal _ (fbProposal db ctx) rfl hA))
            | error fbMsg =>
                rw [handle_run_doubleFail hres aiMsg fbMsg]
                exact DBWf_update_keepPid _ _ _ (fun e => rfl) (fun e => rfl) (fun e => rfl) hA
      · rintro ⟨e, he, heq⟩
        exact absurd (heq.trans hid.symm) (hfresh e he)

/-- Witness for C3: a concrete well-formed database already holding the
webhook's email id. -/
theorem inboundEmail_uniqueness_witness :
    DBWf (handleInboundEmail witnessP none (.error "quota") (.ok ()) witnessDBDup).2 ∧
    ((∃ e ∈ witnessDBDup.inboundEmails, e.emailId = witnessP.data.email_id) →
      (handleInboundEmail witnessP none (.error "quota") (.ok ()) witnessDBDup).2 = witnessDBDup) :=
  inboundEmail_uniqueness witnessP none (.error "quota") (.ok ()) witnessDBDup
    (by unfold DBWf; decide)

end RFPBackend
